import Mathlib

/-!
Verification of the reporting query subsystem of the `reportes` repository.

The development shallowly embeds, in Lean:
  * the parameterized query builders of `lib/queries.ts`
    (`getResumenDaily`, `getProductosMasVendidos`, `getDashboardKPIs`),
  * the Zod validation layer of `lib/schemas.ts`
    (`PaginationSchema`, `DateRangeSchema`, `parseSearchParams`),
  * the five aggregation views of `db/reports_vw.sql`
    (`view_ventas_por_categoria`, `view_productos_mas_vendidos`,
     `view_usuarios_con_compras`, `view_ordenes_por_status`,
     `view_resumen_daily`), with SQL execution modelled over lists.

Monetary amounts (`NUMERIC`) are modelled by `ℚ`, row counts by `ℕ`,
quantities and stock by `ℤ`, timestamps by `ℕ` (seconds), and
`DATE(created_at)` by integer division by 86400.
-/

namespace Reportes

/-! ## Query parameters and placeholder analysis (lib/queries.ts) -/

/-- A query parameter value, as in the TS type `(string | number)[]`. -/
inductive PValue where
  | s : String → PValue
  | n : Int → PValue
deriving DecidableEq

/-- A parameterized SQL request: query text plus ordered parameter list. -/
structure SqlReq where
  text : String
  params : List PValue
deriving DecidableEq

/-- JavaScript truthiness of an optional string argument, as used by
`if (startDate)` in `getResumenDaily`: present and non-empty. -/
def present (o : Option String) : Bool :=
  match o with
  | none => false
  | some s => !s.isEmpty

/-- State of the dynamic WHERE-clause builder of `getResumenDaily`:
the accumulated clause text, the parameter list, and `paramIndex`. -/
structure DailyWhere where
  clause : String
  params : List PValue
  nextIndex : Nat
deriving DecidableEq

/-- The WHERE-clause construction of `getResumenDaily`
(`lib/queries.ts`, lines 184–203), translated step for step:
start from an empty clause, `params = []`, `paramIndex = 1`; if
`startDate` is truthy append `WHERE fecha >= $i::date `, push the value
and increment the index; if `endDate` is truthy append either
`AND fecha <= $i::date ` or `WHERE fecha <= $i::date ` depending on
whether the clause is already non-empty, push the value and increment. -/
def buildDailyWhere (startDate endDate : Option String) : DailyWhere :=
  let w1 : DailyWhere := ⟨"", [], 1⟩
  let w2 : DailyWhere :=
    if present startDate then
      ⟨w1.clause ++ "WHERE fecha >= $" ++ toString w1.nextIndex ++ "::date ",
       w1.params ++ [PValue.s (startDate.getD "")], w1.nextIndex + 1⟩
    else w1
  let w3 : DailyWhere :=
    if present endDate then
      ⟨w2.clause ++
        (if !w2.clause.isEmpty then "AND fecha <= $" else "WHERE fecha <= $") ++
        toString w2.nextIndex ++ "::date ",
       w2.params ++ [PValue.s (endDate.getD "")], w2.nextIndex + 1⟩
    else w2
  w3

/-- The two SQL requests issued by `getResumenDaily`
(`lib/queries.ts`, lines 205–222): the count query over the same clause
and parameters, and the fetch query with `LIMIT $paramIndex OFFSET
$paramIndex+1` appended, whose parameters are the filter parameters plus
`limit` and `offset = (page - 1) * limit`. -/
def getResumenDailyReqs (startDate endDate : Option String)
    (page limit : Int) : SqlReq × SqlReq :=
  let w := buildDailyWhere startDate endDate
  let countReq : SqlReq :=
    ⟨"SELECT COUNT(*) as count FROM view_resumen_daily " ++ w.clause, w.params⟩
  let offset := (page - 1) * limit
  let fetchReq : SqlReq :=
    ⟨"SELECT * FROM view_resumen_daily \n     " ++ w.clause ++
      " \n     ORDER BY fecha DESC \n     LIMIT $" ++ toString w.nextIndex ++
      " OFFSET $" ++ toString (w.nextIndex + 1),
     w.params ++ [PValue.n limit, PValue.n offset]⟩
  (countReq, fetchReq)

/-- Flush the placeholder-scanner state: emit the number just read, if any. -/
def phFlush : Option (Option Nat) → List Nat
  | some (some n) => [n]
  | _ => []

/-- Scan a character list for `$`-placeholders.  The state is `none`
outside a placeholder, `some none` right after a `$`, and
`some (some n)` while reading the digits of placeholder number `n`. -/
def phScan : Option (Option Nat) → List Char → List Nat
  | st, [] => phFlush st
  | st, c :: cs =>
    if c = '$' then phFlush st ++ phScan (some none) cs
    else
      match st with
      | some acc =>
        if c.isDigit then
          phScan (some (some ((acc.getD 0) * 10 + (c.toNat - 48)))) cs
        else phFlush st ++ phScan none cs
      | none => phScan none cs

/-- The list of `$n` placeholder numbers occurring in a query text,
in textual order. -/
def placeholders (s : String) : List Nat := phScan none s.toList

/-- `startsWithChars pat cs`: `pat` is an initial segment of `cs`. -/
def startsWithChars : List Char → List Char → Bool
  | [], _ => true
  | _ :: _, [] => false
  | a :: as, b :: bs => a = b && startsWithChars as bs

/-- `hasRun pat cs`: the character sequence `pat` occurs inside `cs`. -/
def hasRun (pat : List Char) : List Char → Bool
  | [] => pat.isEmpty
  | c :: cs => startsWithChars pat (c :: cs) || hasRun pat cs

/-- The query text contains the token `AND`. -/
def containsAND (s : String) : Bool := hasRun "AND".toList s.toList

/-! ## Claim C1 -/

/-- Claim C1: `getResumenDaily` composes the filter clause so that
placeholder numbers equal each value's position in the parameter list;
with both filters absent no WHERE clause is emitted; with exactly one
present the clause contains no AND; each present filter contributes
exactly one placeholder and one parameter value; and the count query
uses the same clause and parameter list as the fetch, which appends
only the two trailing limit and offset placeholders. -/
theorem getResumenDaily_filters_spec (startDate endDate : Option String)
    (page limit : Int) :
    placeholders (buildDailyWhere startDate endDate).clause
      = List.range' 1 (buildDailyWhere startDate endDate).params.length ∧
    (buildDailyWhere startDate endDate).params.length
      = (if present startDate then 1 else 0) + (if present endDate then 1 else 0) ∧
    (present startDate = false ∧ present endDate = false →
      (buildDailyWhere startDate endDate).clause = "") ∧
    (present startDate ≠ present endDate →
      containsAND (buildDailyWhere startDate endDate).clause = false) ∧
    (getResumenDailyReqs startDate endDate page limit).1.text
      = "SELECT COUNT(*) as count FROM view_resumen_daily "
          ++ (buildDailyWhere startDate endDate).clause ∧
    (getResumenDailyReqs startDate endDate page limit).1.params
      = (buildDailyWhere startDate endDate).params ∧
    (getResumenDailyReqs startDate endDate page limit).2.params
      = (buildDailyWhere startDate endDate).params
          ++ [PValue.n limit, PValue.n ((page - 1) * limit)] ∧
    placeholders (getResumenDailyReqs startDate endDate page limit).2.text
      = List.range' 1 ((buildDailyWhere startDate endDate).params.length + 2) := by
  cases hs : present startDate <;> cases he : present endDate <;>
    simp only [buildDailyWhere, getResumenDailyReqs, hs, he, if_true, if_false,
      List.length_append, List.length_cons, List.length_nil, Bool.true_eq_false,
      Bool.false_eq_true] <;>
    exact ⟨by decide, by decide, by simp, by intro h; first | decide | exact absurd rfl h, by simp, by simp, by simp, by decide⟩

/-- Concrete instance of the claim-C1 theorem: with only `startDate`
present the clause has no AND and a single placeholder `$1`. -/
theorem getResumenDaily_filters_spec_witness :
    present (some "2024-01-01") ≠ present none ∧
    containsAND (buildDailyWhere (some "2024-01-01") none).clause = false :=
  ⟨by decide,
   (getResumenDaily_filters_spec (some "2024-01-01") none 1 10).2.2.2.1 (by decide)⟩

/-! ## Data model (base tables, read-only) -/

/-- A row of the `usuarios` table. -/
structure Usuario where
  id : Nat
  nombre : String
  email : String
deriving DecidableEq

/-- A row of the `categorias` table. -/
structure Categoria where
  id : Nat
  nombre : String
deriving DecidableEq

/-- A row of the `productos` table. -/
structure Producto where
  id : Nat
  codigo : String
  nombre : String
  precio : ℚ
  stock : Int
  categoriaId : Nat
deriving DecidableEq

/-- A row of the `ordenes` table.  `createdAt` is a timestamp in seconds. -/
structure Orden where
  id : Nat
  usuarioId : Nat
  status : String
  total : ℚ
  createdAt : Nat
deriving DecidableEq

/-- A row of the `orden_detalles` table. -/
structure OrdenDetalle where
  ordenId : Nat
  productoId : Nat
  cantidad : Int
  subtotal : ℚ
deriving DecidableEq

/-- The transactional database the five views aggregate over. -/
structure Database where
  usuarios : List Usuario
  categorias : List Categoria
  productos : List Producto
  ordenes : List Orden
  ordenDetalles : List OrdenDetalle
deriving DecidableEq

/-- `DATE(created_at)`: the calendar-day number of a timestamp. -/
def dateOf (o : Orden) : Nat := o.createdAt / 86400

/-! ## SQL arithmetic helpers -/

/-- Round half away from zero, the rounding mode of PostgreSQL
`ROUND(numeric)`. -/
def pgRoundInt (q : ℚ) : Int := if 0 ≤ q then round q else -round (-q)

/-- `ROUND(q, 2)`: round to two decimal places, half away from zero. -/
def round2 (q : ℚ) : ℚ := (pgRoundInt (q * 100) : ℚ) / 100

/-- `MIN` over a column of a non-empty group (`0` on an empty list,
which no view reaches). -/
def minQ : List ℚ → ℚ
  | [] => 0
  | x :: xs => xs.foldl min x

/-- `MAX` over a column of a non-empty group (`0` on an empty list,
which no view reaches). -/
def maxQ : List ℚ → ℚ
  | [] => 0
  | x :: xs => xs.foldl max x

/-- `MAX` over a possibly-empty list of timestamps; `none` models SQL
`NULL` on an empty aggregate. -/
def maxNat? : List Nat → Option Nat
  | [] => none
  | x :: xs => some (xs.foldl max x)

/-! ## ORDER BY: insertion sort on a boolean relation -/

/-- Insert an element into a list, before the first element `b` with
`le a b`. -/
def insertLe (le : α → α → Bool) (a : α) : List α → List α
  | [] => [a]
  | b :: bs => if le a b then a :: b :: bs else b :: insertLe le a bs

/-- Insertion sort by the boolean relation `le`; models SQL `ORDER BY`. -/
def sortLe (le : α → α → Bool) : List α → List α
  | [] => []
  | a :: as => insertLe le a (sortLe le as)

theorem insertLe_perm (le : α → α → Bool) (a : α) (l : List α) :
    List.Perm (insertLe le a l) (a :: l) := by
  induction l with
  | nil => simp [insertLe]
  | cons b bs ih =>
    by_cases h : le a b = true
    · simp [insertLe, h]
    · simp only [insertLe, h]
      exact ((ih.cons b).trans (List.Perm.swap a b bs))

theorem sortLe_perm (le : α → α → Bool) (l : List α) :
    List.Perm (sortLe le l) l := by
  induction l with
  | nil => simp [sortLe]
  | cons a as ih => exact (insertLe_perm le a (sortLe le as)).trans (ih.cons a)

theorem mem_sortLe {le : α → α → Bool} {l : List α} {x : α} :
    x ∈ sortLe le l ↔ x ∈ l :=
  (sortLe_perm le l).mem_iff

theorem length_sortLe (le : α → α → Bool) (l : List α) :
    (sortLe le l).length = l.length :=
  (sortLe_perm le l).length_eq

theorem pairwise_insertLe {le : α → α → Bool}
    (htot : ∀ a b, le a b = false → le b a = true)
    (htrans : ∀ a b c, le a b = true → le b c = true → le a c = true)
    (a : α) {l : List α}
    (h : l.Pairwise (fun x y => le x y = true)) :
    (insertLe le a l).Pairwise (fun x y => le x y = true) := by
  induction l with
  | nil => simp [insertLe]
  | cons b bs ih =>
    rcases h with _ | ⟨hb, hbs⟩
    by_cases hab : le a b = true
    · simp only [insertLe, hab, if_true]
      refine List.Pairwise.cons ?_ (List.Pairwise.cons hb hbs)
      intro y hy
      rcases List.mem_cons.mp hy with rfl | hy
      · exact hab
      · exact htrans a b y hab (hb y hy)
    · have hab2 : le a b = false := by simpa using hab
      simp only [insertLe, hab, if_false]
      refine List.Pairwise.cons ?_ (ih hbs)
      intro y hy
      have hy2 := (insertLe_perm le a bs).mem_iff.mp hy
      rcases List.mem_cons.mp hy2 with rfl | hy2
      · exact htot _ _ hab2
      · exact hb y hy2

theorem sortLe_pairwise {le : α → α → Bool}
    (htot : ∀ a b, le a b = false → le b a = true)
    (htrans : ∀ a b c, le a b = true → le b c = true → le a c = true)
    (l : List α) :
    (sortLe le l).Pairwise (fun x y => le x y = true) := by
  induction l with
  | nil => simp [sortLe]
  | cons a as ih => exact pairwise_insertLe htot htrans a ih

/-! ## VIEW 2: view_productos_mas_vendidos (db/reports_vw.sql 201-218) -/

/-- A row of the join `productos INNER JOIN orden_detalles ON
od.producto_id = p.id INNER JOIN categorias ON c.id = p.categoria_id`. -/
structure ProdJoinRow where
  p : Producto
  od : OrdenDetalle
  c : Categoria
deriving DecidableEq

/-- The join underlying `view_productos_mas_vendidos`. -/
def prodJoin (db : Database) : List ProdJoinRow :=
  db.productos.flatMap fun p =>
    (db.ordenDetalles.filter fun od => decide (od.productoId = p.id)).flatMap fun od =>
      (db.categorias.filter fun c => decide (c.id = p.categoriaId)).map fun c =>
        ⟨p, od, c⟩

/-- The `GROUP BY p.id, p.codigo, p.nombre, p.precio, p.stock, c.nombre`
key of a join row. -/
def prodKeyOf (r : ProdJoinRow) : Nat × String × String × ℚ × Int × String :=
  (r.p.id, r.p.codigo, r.p.nombre, r.p.precio, r.p.stock, r.c.nombre)

/-- One product group of `view_productos_mas_vendidos`, before the
`ROW_NUMBER()` window function is applied. -/
structure ProdGroup where
  producto_id : Nat
  producto_codigo : String
  producto_nombre : String
  categoria : String
  cantidad_vendida : Int
  ingresos_generados : ℚ
  numero_de_ordenes : Nat
  precio_actual : ℚ
  stock_actual : Int
deriving DecidableEq

/-- Aggregate one group: `SUM(od.cantidad)`, `SUM(od.subtotal)`,
`COUNT(DISTINCT od.orden_id)`. -/
def mkProdGroup (db : Database) (k : Nat × String × String × ℚ × Int × String) :
    ProdGroup :=
  let grp := (prodJoin db).filter fun r => decide (prodKeyOf r = k)
  { producto_id := k.1, producto_codigo := k.2.1, producto_nombre := k.2.2.1,
    precio_actual := k.2.2.2.1, stock_actual := k.2.2.2.2.1,
    categoria := k.2.2.2.2.2,
    cantidad_vendida := (grp.map fun r => r.od.cantidad).sum,
    ingresos_generados := (grp.map fun r => r.od.subtotal).sum,
    numero_de_ordenes := ((grp.map fun r => r.od.ordenId).dedup).length }

/-- The grouped rows after `HAVING SUM(od.cantidad) > 0`. -/
def prodGroups (db : Database) : List ProdGroup :=
  (((prodJoin db).map prodKeyOf).dedup.map (mkProdGroup db)).filter
    fun g => decide (0 < g.cantidad_vendida)

/-- The `ORDER BY SUM(od.cantidad) DESC` relation of the `ROW_NUMBER()`
window (coinciding with the view's final `ORDER BY cantidad_vendida
DESC`). -/
def prodLe (a b : ProdGroup) : Bool := decide (b.cantidad_vendida ≤ a.cantidad_vendida)

/-- The groups in window order: units sold descending. -/
def prodSorted (db : Database) : List ProdGroup := sortLe prodLe (prodGroups db)

/-- A row of `view_productos_mas_vendidos`. -/
structure ProductoMasVendido where
  ranking : Nat
  producto_id : Nat
  producto_codigo : String
  producto_nombre : String
  categoria : String
  cantidad_vendida : Int
  ingresos_generados : ℚ
  numero_de_ordenes : Nat
  precio_actual : ℚ
  stock_actual : Int
deriving DecidableEq, Inhabited

/-- `ROW_NUMBER() OVER (ORDER BY SUM(od.cantidad) DESC)`: number the
window-ordered groups consecutively starting at `i`. -/
def addRanks : Nat → List ProdGroup → List ProductoMasVendido
  | _, [] => []
  | i, g :: gs =>
    { ranking := i, producto_id := g.producto_id,
      producto_codigo := g.producto_codigo,
      producto_nombre := g.producto_nombre, categoria := g.categoria,
      cantidad_vendida := g.cantidad_vendida,
      ingresos_generados := g.ingresos_generados,
      numero_de_ordenes := g.numero_de_ordenes,
      precio_actual := g.precio_actual,
      stock_actual := g.stock_actual } :: addRanks (i + 1) gs

/-- `view_productos_mas_vendidos`: grouped product sales, ranked by
units sold descending. -/
def view_productos_mas_vendidos (db : Database) : List ProductoMasVendido :=
  addRanks 1 (prodSorted db)

theorem addRanks_map_ranking (i : Nat) (l : List ProdGroup) :
    (addRanks i l).map (fun r => r.ranking) = List.range' i l.length := by
  induction l generalizing i with
  | nil => simp [addRanks]
  | cons g gs ih => simp [addRanks, ih, List.range'_succ]

theorem addRanks_length (i : Nat) (l : List ProdGroup) :
    (addRanks i l).length = l.length := by
  have h := congrArg List.length (addRanks_map_ranking i l)
  simpa using h

theorem mem_addRanks_cant {i : Nat} {l : List ProdGroup}
    {r : ProductoMasVendido} (h : r ∈ addRanks i l) :
    ∃ g ∈ l, r.cantidad_vendida = g.cantidad_vendida := by
  induction l generalizing i with
  | nil => simp [addRanks] at h
  | cons g gs ih =>
    rcases List.mem_cons.mp h with rfl | h2
    · exact ⟨g, List.mem_cons_self g gs, rfl⟩
    · obtain ⟨g2, hg2, he⟩ := ih h2
      exact ⟨g2, List.mem_cons_of_mem g hg2, he⟩

theorem pairwise_addRanks_cant {i : Nat} {l : List ProdGroup}
    (h : l.Pairwise fun a b => b.cantidad_vendida ≤ a.cantidad_vendida) :
    (addRanks i l).Pairwise
      fun a b => b.cantidad_vendida ≤ a.cantidad_vendida := by
  induction l generalizing i with
  | nil => exact List.Pairwise.nil
  | cons g gs ih =>
    rcases h with _ | ⟨hg, hgs⟩
    refine List.Pairwise.cons ?_ (ih hgs)
    intro y hy
    obtain ⟨g2, hg2, he⟩ := mem_addRanks_cant hy
    simpa [he] using hg g2 hg2

/-! ## Claim C6 -/

theorem prodLe_total (a b : ProdGroup) (h : prodLe a b = false) :
    prodLe b a = true := by
  simp only [prodLe, decide_eq_false_iff_not, decide_eq_true_eq, not_le] at *
  exact le_of_lt h

theorem prodLe_trans (a b c : ProdGroup) (h1 : prodLe a b = true)
    (h2 : prodLe b c = true) : prodLe a c = true := by
  simp only [prodLe, decide_eq_true_eq] at *
  exact le_trans h2 h1

/-- Claim C6: for every data set, the `N` rows of
`view_productos_mas_vendidos` carry ranking values that are exactly the
sequence `1, …, N`, units sold is non-increasing as rank increases, and
only products with units sold `> 0` appear. -/
theorem view_productos_ranking_dense (db : Database) :
    (view_productos_mas_vendidos db).map (fun r => r.ranking)
      = List.range' 1 (view_productos_mas_vendidos db).length ∧
    (view_productos_mas_vendidos db).Pairwise
      (fun a b => b.cantidad_vendida ≤ a.cantidad_vendida) ∧
    ∀ r ∈ view_productos_mas_vendidos db, 0 < r.cantidad_vendida := by
  refine ⟨?_, ?_, ?_⟩
  · rw [view_productos_mas_vendidos, addRanks_length, addRanks_map_ranking]
  · have hp := sortLe_pairwise prodLe_total prodLe_trans (prodGroups db)
    have hp2 : (prodSorted db).Pairwise
        (fun a b => b.cantidad_vendida ≤ a.cantidad_vendida) := by
      refine hp.imp ?_
      intro a b h
      simpa [prodLe] using h
    exact pairwise_addRanks_cant hp2
  · intro r hr
    obtain ⟨g, hg, he⟩ := mem_addRanks_cant hr
    have hg2 : g ∈ prodGroups db := mem_sortLe.mp hg
    have := (List.mem_filter.mp hg2).2
    rw [he]
    simpa using this

/-- A tiny data set for concrete evaluation of the product ranking:
one category, two products, product 1 sold 5 units, product 2 sold 3. -/
def dbProd : Database :=
  { usuarios := [⟨1, "Ana", "ana@mail.com"⟩],
    categorias := [⟨1, "Electronica"⟩],
    productos := [⟨1, "P-001", "Mouse", 10, 4, 1⟩, ⟨2, "P-002", "Teclado", 20, 7, 1⟩],
    ordenes := [⟨1, 1, "pagado", 80, 86400⟩],
    ordenDetalles := [⟨1, 1, 5, 50⟩, ⟨1, 2, 3, 30⟩] }


/-- Concrete instance of the claim-C6 theorem on `dbProd`: the first
returned row has positive units sold, and the rank column is `[1, 2]`. -/
theorem view_productos_ranking_dense_witness :
    0 < ((view_productos_mas_vendidos dbProd).get ⟨0, by decide⟩).cantidad_vendida ∧
    (view_productos_mas_vendidos dbProd).map (fun r => r.ranking) = [1, 2] :=
  ⟨(view_productos_ranking_dense dbProd).2.2 _ (List.get_mem _ _ _),
   by decide⟩

/-! ## getProductosMasVendidos (lib/queries.ts 101-126) and claim C3 -/

/-- The `{ data, total }` result shape of `getProductosMasVendidos`. -/
structure ProdResult where
  data : List ProductoMasVendido
  total : Nat
deriving DecidableEq

/-- `const offset = (page - 1) * limit` of `getProductosMasVendidos`. -/
def prodOffset (page limit : Int) : Int := (page - 1) * limit

/-- `getProductosMasVendidos topN page limit`, with SQL execution
modelled over the embedded view: the count query
`SELECT COUNT(*) … WHERE ranking <= $1` and the fetch query
`SELECT * … WHERE ranking <= $1 ORDER BY ranking LIMIT $2 OFFSET $3`
(the view's rows are already produced in `ORDER BY ranking` order). -/
def getProductosMasVendidos (db : Database) (topN page limit : Int) :
    ProdResult :=
  let filtered := (view_productos_mas_vendidos db).filter
    fun r => decide ((r.ranking : Int) ≤ topN)
  { total := filtered.length,
    data := (filtered.drop (prodOffset page limit).toNat).take limit.toNat }

/-- Claim C3: for every `topN`, `page ≥ 1` and `limit ∈ [1, 100]`,
`getProductosMasVendidos` returns `total` equal to the number of view
rows with ranking `≤ topN` (not the unfiltered product count), with
offset `(page − 1) × limit ≥ 0`, and fetches rows ordered by ranking. -/
theorem getProductosMasVendidos_spec (db : Database) (topN page limit : Int)
    (hp : 1 ≤ page) (hl1 : 1 ≤ limit) (hl2 : limit ≤ 100) :
    (getProductosMasVendidos db topN page limit).total
      = ((view_productos_mas_vendidos db).filter
          (fun r => decide ((r.ranking : Int) ≤ topN))).length ∧
    prodOffset page limit = (page - 1) * limit ∧
    0 ≤ prodOffset page limit ∧
    (getProductosMasVendidos db topN page limit).data.Pairwise
      (fun a b => a.ranking ≤ b.ranking) := by
  refine ⟨rfl, rfl, ?_, ?_⟩
  · have h1 : (0 : Int) ≤ page - 1 := by linarith
    have h2 : (0 : Int) ≤ limit := by linarith
    exact mul_nonneg h1 h2
  · have hmap : (view_productos_mas_vendidos db).map (fun r => r.ranking)
        = List.range' 1 (view_productos_mas_vendidos db).length := by
      rw [view_productos_mas_vendidos, addRanks_length, addRanks_map_ranking]
    have hlt : ((view_productos_mas_vendidos db).map (fun r => r.ranking)).Pairwise
        (fun a b => a < b) := by
      rw [hmap]; exact List.pairwise_lt_range' 1 _
    have hview : (view_productos_mas_vendidos db).Pairwise
        (fun a b => a.ranking ≤ b.ranking) :=
      (List.pairwise_map.mp hlt).imp fun h => le_of_lt h
    exact List.Pairwise.sublist
      ((List.take_sublist _ _).trans (List.drop_sublist _ _)) (hview.filter _)

/-- Six sold products with distinct unit counts, so the ranking view has
six rows and `topN = 5` filters one out. -/
def dbC3 : Database :=
  { usuarios := [⟨1, "Ana", "ana@mail.com"⟩],
    categorias := [⟨1, "Electronica"⟩],
    productos := [⟨1, "P-001", "Mouse", 10, 4, 1⟩, ⟨2, "P-002", "Teclado", 20, 7, 1⟩,
                  ⟨3, "P-003", "Monitor", 30, 2, 1⟩, ⟨4, "P-004", "Cable", 5, 9, 1⟩,
                  ⟨5, "P-005", "Hub", 15, 3, 1⟩, ⟨6, "P-006", "Webcam", 25, 6, 1⟩],
    ordenes := [⟨1, 1, "pagado", 100, 86400⟩],
    ordenDetalles := [⟨1, 1, 10, 10⟩, ⟨1, 2, 9, 9⟩, ⟨1, 3, 8, 8⟩,
                      ⟨1, 4, 7, 7⟩, ⟨1, 5, 6, 6⟩, ⟨1, 6, 5, 5⟩] }

/-- Concrete instance of the claim-C3 theorem, the example of the spec:
`topN = 5, page = 2, limit = 2` fetches at offset 2 and returns ranks
3–4, while `total` is 5, not the unfiltered product count 6. -/
theorem getProductosMasVendidos_spec_witness :
    (getProductosMasVendidos dbC3 5 2 2).total = 5 ∧
    prodOffset 2 2 = 2 ∧
    0 ≤ prodOffset 2 2 ∧
    (getProductosMasVendidos dbC3 5 2 2).data.map (fun r => r.ranking) = [3, 4] ∧
    (view_productos_mas_vendidos dbC3).length = 6 := by
  have h := getProductosMasVendidos_spec dbC3 5 2 2 (by decide) (by decide) (by decide)
  refine ⟨?_, h.2.1, h.2.2.1, by decide, by decide⟩
  rw [h.1]
  decide

/-! ## VIEW 3: view_usuarios_con_compras (db/reports_vw.sql 249-268) -/

/-- A row of `usuarios LEFT JOIN ordenes ON o.usuario_id = u.id
LEFT JOIN orden_detalles ON od.orden_id = o.id`; `none` models the
NULLs produced by an unmatched left join. -/
structure UserJoinRow where
  u : Usuario
  o : Option Orden
  od : Option OrdenDetalle
deriving DecidableEq

/-- The double left join underlying `view_usuarios_con_compras`. -/
def userJoin (db : Database) : List UserJoinRow :=
  db.usuarios.flatMap fun u =>
    let os := db.ordenes.filter fun o => decide (o.usuarioId = u.id)
    if os.isEmpty then [⟨u, none, none⟩]
    else os.flatMap fun o =>
      let ds := db.ordenDetalles.filter fun d => decide (d.ordenId = o.id)
      if ds.isEmpty then [⟨u, some o, none⟩]
      else ds.map fun d => ⟨u, some o, some d⟩

/-- The `GROUP BY u.id, u.nombre, u.email` keys. -/
def userKeys (db : Database) : List (Nat × String × String) :=
  ((userJoin db).map fun r => (r.u.id, r.u.nombre, r.u.email)).dedup

/-- The join rows of one user group. -/
def userGrp (db : Database) (k : Nat × String × String) : List UserJoinRow :=
  (userJoin db).filter fun r => decide ((r.u.id, r.u.nombre, r.u.email) = k)

/-- The non-NULL `o.*` values of one group, one per join row; SQL
aggregates over `o.total`, `o.id`, `o.created_at` ignore the NULLs. -/
def userOrds (db : Database) (k : Nat × String × String) : List Orden :=
  (userGrp db k).filterMap fun r => r.o

/-- The non-NULL `od.*` values of one group. -/
def userDets (db : Database) (k : Nat × String × String) : List OrdenDetalle :=
  (userGrp db k).filterMap fun r => r.od

/-- A row of `view_usuarios_con_compras`. -/
structure UsuarioConCompras where
  usuario_id : Nat
  usuario_nombre : String
  usuario_email : String
  total_ordenes : Nat
  total_gastado : ℚ
  promedio_por_orden : ℚ
  productos_diferentes_comprados : Nat
  ultima_compra : Option Nat
  tipo_cliente : String
deriving DecidableEq

/-- Aggregate one user group: `COALESCE(COUNT(DISTINCT o.id), 0)`,
`COALESCE(SUM(o.total), 0)`, `COALESCE(ROUND(AVG(o.total), 2), 0)`,
`COALESCE(COUNT(DISTINCT od.producto_id), 0)`,
`COALESCE(MAX(o.created_at), NULL)`, and the `CASE` on `COUNT(o.id)` —
which counts join rows with a non-NULL order, not distinct orders. -/
def mkUsuarioRow (db : Database) (k : Nat × String × String) :
    UsuarioConCompras :=
  let ords := userOrds db k
  let dets := userDets db k
  { usuario_id := k.1, usuario_nombre := k.2.1, usuario_email := k.2.2,
    total_ordenes := ((ords.map fun o => o.id).dedup).length,
    total_gastado := (ords.map fun o => o.total).sum,
    promedio_por_orden := if ords.isEmpty then 0
      else round2 ((ords.map fun o => o.total).sum / (ords.length : ℚ)),
    productos_diferentes_comprados :=
      ((dets.map fun d => d.productoId).dedup).length,
    ultima_compra := maxNat? (ords.map fun o => o.createdAt),
    tipo_cliente := if 3 ≤ ords.length then "Frecuente"
      else if 1 ≤ ords.length then "Ocasional" else "Sin compras" }

/-- The view's `ORDER BY total_gastado DESC` relation. -/
def userLe (a b : UsuarioConCompras) : Bool :=
  decide (b.total_gastado ≤ a.total_gastado)

/-- `view_usuarios_con_compras`: one row per user, zero-order users
included. -/
def view_usuarios_con_compras (db : Database) : List UsuarioConCompras :=
  sortLe userLe ((userKeys db).map (mkUsuarioRow db))

theorem userJoin_shape {db : Database} {r : UserJoinRow}
    (h : r ∈ userJoin db) :
    (∀ o, r.o = some o → o.usuarioId = r.u.id ∧ o ∈ db.ordenes) ∧
    (r.o = none → r.od = none) := by
  obtain ⟨u, _, hr⟩ := List.mem_flatMap.mp h
  by_cases hos : (db.ordenes.filter fun o => decide (o.usuarioId = u.id)).isEmpty
  · rw [if_pos hos] at hr
    rcases List.mem_singleton.mp hr with rfl
    exact ⟨fun o ho => Option.noConfusion ho, fun _ => rfl⟩
  · rw [if_neg hos] at hr
    obtain ⟨o, ho, hr2⟩ := List.mem_flatMap.mp hr
    have ho2 := List.mem_filter.mp ho
    have houid : o.usuarioId = u.id := of_decide_eq_true ho2.2
    by_cases hds : (db.ordenDetalles.filter fun d => decide (d.ordenId = o.id)).isEmpty
    · rw [if_pos hds] at hr2
      rcases List.mem_singleton.mp hr2 with rfl
      refine ⟨fun o2 ho3 => ?_, fun hnone => by cases hnone⟩
      obtain rfl := Option.some.inj ho3
      exact ⟨houid, ho2.1⟩
    · rw [if_neg hds] at hr2
      obtain ⟨d, _, hr3⟩ := List.mem_map.mp hr2
      rcases hr3 with rfl
      refine ⟨fun o2 ho3 => ?_, fun hnone => by cases hnone⟩
      obtain rfl := Option.some.inj ho3
      exact ⟨houid, ho2.1⟩

theorem userJoin_exists {db : Database} {u : Usuario}
    (hu : u ∈ db.usuarios) : ∃ r ∈ userJoin db, r.u = u := by
  by_cases hos : (db.ordenes.filter fun o => decide (o.usuarioId = u.id)).isEmpty
  · refine ⟨⟨u, none, none⟩, List.mem_flatMap.mpr ⟨u, hu, ?_⟩, rfl⟩
    rw [if_pos hos]
    exact List.mem_singleton.mpr rfl
  · obtain ⟨o, ho⟩ := List.exists_mem_of_ne_nil
      (db.ordenes.filter fun o => decide (o.usuarioId = u.id))
      (fun hnil => hos (by rw [hnil]; rfl))
    by_cases hds : (db.ordenDetalles.filter fun d => decide (d.ordenId = o.id)).isEmpty
    · refine ⟨⟨u, some o, none⟩, List.mem_flatMap.mpr ⟨u, hu, ?_⟩, rfl⟩
      rw [if_neg hos]
      exact List.mem_flatMap.mpr ⟨o, ho, by rw [if_pos hds]; exact List.mem_singleton.mpr rfl⟩
    · obtain ⟨d, hd⟩ := List.exists_mem_of_ne_nil
        (db.ordenDetalles.filter fun d => decide (d.ordenId = o.id))
        (fun hnil => hds (by rw [hnil]; rfl))
      refine ⟨⟨u, some o, some d⟩, List.mem_flatMap.mpr ⟨u, hu, ?_⟩, rfl⟩
      rw [if_neg hos]
      refine List.mem_flatMap.mpr ⟨o, ho, ?_⟩
      rw [if_neg hds]
      exact List.mem_map_of_mem _ hd

/-! ## Claims C9 and C2 -/

/-- Claim C9: every user yields a row of `view_usuarios_con_compras`,
and a row of a user with zero orders has every numeric aggregate equal
to 0, a NULL last purchase, and the zero-order tier `"Sin compras"`;
no NULL of the outer join reaches the aggregates. -/
theorem view_usuarios_zero_order_row (db : Database) :
    (∀ u ∈ db.usuarios, ∃ r ∈ view_usuarios_con_compras db,
      r.usuario_id = u.id ∧ r.usuario_nombre = u.nombre ∧
      r.usuario_email = u.email) ∧
    (∀ r ∈ view_usuarios_con_compras db,
      (∀ o ∈ db.ordenes, o.usuarioId ≠ r.usuario_id) →
      r.total_ordenes = 0 ∧ r.total_gastado = 0 ∧ r.promedio_por_orden = 0 ∧
      r.productos_diferentes_comprados = 0 ∧ r.ultima_compra = none ∧
      r.tipo_cliente = "Sin compras") := by
  constructor
  · intro u hu
    obtain ⟨rj, hrj, hru⟩ := userJoin_exists hu
    have hk : (u.id, u.nombre, u.email) ∈ userKeys db := by
      apply List.mem_dedup.mpr
      have hm := List.mem_map_of_mem
        (fun r : UserJoinRow => (r.u.id, r.u.nombre, r.u.email)) hrj
      simp only [hru] at hm
      exact hm
    exact ⟨mkUsuarioRow db (u.id, u.nombre, u.email),
      mem_sortLe.mpr (List.mem_map_of_mem _ hk), rfl, rfl, rfl⟩
  · intro r hr hno
    obtain ⟨k, hk, hkr⟩ := List.mem_map.mp (mem_sortLe.mp hr)
    subst hkr
    have hords : userOrds db k = [] := by
      rw [List.eq_nil_iff_forall_not_mem]
      intro o ho
      obtain ⟨rr, hrr, hro⟩ := List.mem_filterMap.mp ho
      have hrr2 := List.mem_filter.mp hrr
      have hkey : (rr.u.id, rr.u.nombre, rr.u.email) = k := of_decide_eq_true hrr2.2
      obtain ⟨h1, h2⟩ := (userJoin_shape hrr2.1).1 o hro
      refine hno o h2 ?_
      rw [h1]
      exact congrArg Prod.fst hkey
    have hdets : userDets db k = [] := by
      rw [List.eq_nil_iff_forall_not_mem]
      intro d hd
      obtain ⟨rr, hrr, hrd⟩ := List.mem_filterMap.mp hd
      have hrr2 := List.mem_filter.mp hrr
      have hkey : (rr.u.id, rr.u.nombre, rr.u.email) = k := of_decide_eq_true hrr2.2
      have hshape := userJoin_shape hrr2.1
      cases hro : rr.o with
      | none =>
        rw [hshape.2 hro] at hrd
        cases hrd
      | some o =>
        obtain ⟨h1, h2⟩ := hshape.1 o hro
        refine hno o h2 ?_
        rw [h1]
        exact congrArg Prod.fst hkey
    refine ⟨?_, ?_, ?_, ?_, ?_, ?_⟩ <;>
      simp [mkUsuarioRow, hords, hdets, maxNat?]

/-- One user and nothing else: a zero-order user. -/
def dbC9 : Database :=
  { usuarios := [⟨7, "Luis", "luis@mail.com"⟩], categorias := [],
    productos := [], ordenes := [], ordenDetalles := [] }

/-- Concrete instance of the claim-C9 theorem on `dbC9`: the single
produced row has all aggregates zero, NULL last purchase, and the
zero-order tier. -/
theorem view_usuarios_zero_order_row_witness :
    ((view_usuarios_con_compras dbC9).get ⟨0, by decide⟩).total_ordenes = 0 ∧
    ((view_usuarios_con_compras dbC9).get ⟨0, by decide⟩).total_gastado = 0 ∧
    ((view_usuarios_con_compras dbC9).get ⟨0, by decide⟩).promedio_por_orden = 0 ∧
    ((view_usuarios_con_compras dbC9).get
        ⟨0, by decide⟩).productos_diferentes_comprados = 0 ∧
    ((view_usuarios_con_compras dbC9).get ⟨0, by decide⟩).ultima_compra = none ∧
    ((view_usuarios_con_compras dbC9).get ⟨0, by decide⟩).tipo_cliente
      = "Sin compras" :=
  (view_usuarios_zero_order_row dbC9).2 _ (List.get_mem _ _ _) (by decide)

/-- One user with exactly one order that has three order lines. -/
def dbC2 : Database :=
  { usuarios := [⟨1, "Ana", "ana@mail.com"⟩],
    categorias := [⟨1, "Electronica"⟩],
    productos := [⟨1, "P-001", "Mouse", 10, 4, 1⟩,
                  ⟨2, "P-002", "Teclado", 20, 7, 1⟩,
                  ⟨3, "P-003", "Monitor", 30, 2, 1⟩],
    ordenes := [⟨1, 1, "pagado", 60, 86400⟩],
    ordenDetalles := [⟨1, 1, 1, 10⟩, ⟨1, 2, 1, 20⟩, ⟨1, 3, 1, 30⟩] }

/-- Claim C2 fails on the code: the `CASE` deciding `tipo_cliente` uses
`COUNT(o.id)`, which counts order/line join rows, not the
`COUNT(DISTINCT o.id)` reported as `total_ordenes`.  On `dbC2` the only
user has exactly one order (`total_ordenes = 1`) with three order
lines, yet is classified `"Frecuente"` — the claim (and the adjacent
`total_ordenes` column) require the order count 1, hence
`"Ocasional"`. -/
theorem view_usuarios_tier_bug_eval :
    ((view_usuarios_con_compras dbC2).get ⟨0, by decide⟩).total_ordenes = 1 ∧
    ((view_usuarios_con_compras dbC2).get ⟨0, by decide⟩).tipo_cliente
      = "Frecuente" := by
  exact ⟨by decide, by decide⟩

/-! ## VIEW 4: view_ordenes_por_status (db/reports_vw.sql 304-339) -/

/-- The `CASE o.status` description lookup, with the `ELSE` fallback. -/
def statusDescripcion (s : String) : String :=
  if s = "pendiente" then "Pendiente de pago"
  else if s = "pagado" then "Pagado - En preparacion"
  else if s = "enviado" then "En camino"
  else if s = "entregado" then "Entregado"
  else if s = "cancelado" then "Cancelado"
  else "Desconocido"

/-- The `CASE o.status` sort-priority lookup, with the `ELSE` fallback. -/
def statusPrioridad (s : String) : Nat :=
  if s = "pendiente" then 1
  else if s = "pagado" then 2
  else if s = "enviado" then 3
  else if s = "entregado" then 4
  else if s = "cancelado" then 5
  else 6

/-- The CTE `totales`: `COUNT(*)` over all orders, regardless of status. -/
def totalOrdenesGlobal (db : Database) : Nat := db.ordenes.length

/-- The CTE `totales`: `SUM(total)` over all orders, regardless of status. -/
def montoTotalGlobal (db : Database) : ℚ := (db.ordenes.map fun o => o.total).sum

/-- A row of `view_ordenes_por_status`.  The two percentage columns are
`Option ℚ` because `NULLIF` turns a zero global denominator into NULL. -/
structure OrdenPorStatus where
  status : String
  descripcion_status : String
  cantidad_ordenes : Nat
  monto_total : ℚ
  monto_promedio : ℚ
  orden_minima : ℚ
  orden_maxima : ℚ
  porcentaje_ordenes : Option ℚ
  porcentaje_monto : Option ℚ
  prioridad : Nat
deriving DecidableEq

/-- The orders of one status group. -/
def statusGrp (db : Database) (s : String) : List Orden :=
  db.ordenes.filter fun o => decide (o.status = s)

/-- Aggregate one status group, combining it with the single global
totals of the CTE: both percentages divide by the shared precomputed
global values. -/
def mkStatusRow (db : Database) (s : String) : OrdenPorStatus :=
  let grp := statusGrp db s
  { status := s,
    descripcion_status := statusDescripcion s,
    cantidad_ordenes := grp.length,
    monto_total := (grp.map fun o => o.total).sum,
    monto_promedio := if grp.isEmpty then 0
      else round2 ((grp.map fun o => o.total).sum / (grp.length : ℚ)),
    orden_minima := minQ (grp.map fun o => o.total),
    orden_maxima := maxQ (grp.map fun o => o.total),
    porcentaje_ordenes := if totalOrdenesGlobal db = 0 then none
      else some (round2 ((grp.length : ℚ) * 100 / (totalOrdenesGlobal db : ℚ))),
    porcentaje_monto := if montoTotalGlobal db = 0 then none
      else some (round2 ((grp.map fun o => o.total).sum * 100
        / montoTotalGlobal db)),
    prioridad := statusPrioridad s }

/-- The `GROUP BY o.status` keys. -/
def statusKeys (db : Database) : List String :=
  (db.ordenes.map fun o => o.status).dedup

/-- The view's `ORDER BY prioridad` relation. -/
def statusLe (a b : OrdenPorStatus) : Bool := decide (a.prioridad ≤ b.prioridad)

/-- `view_ordenes_por_status`: one row per status present among the
orders (the `CROSS JOIN` with the CTE yields no rows when `ordenes` is
empty). -/
def view_ordenes_por_status (db : Database) : List OrdenPorStatus :=
  sortLe statusLe ((statusKeys db).map (mkStatusRow db))

/-! ## Rounding error bounds -/

theorem pgRoundInt_close (q : ℚ) : |(pgRoundInt q : ℚ) - q| ≤ 1 / 2 := by
  rw [pgRoundInt]
  by_cases h : 0 ≤ q
  · rw [if_pos h, abs_sub_comm]
    exact abs_sub_round q
  · rw [if_neg h]
    have h2 : ((-round (-q) : Int) : ℚ) - q = (-q) - ((round (-q) : Int) : ℚ) := by
      push_cast
      ring
    rw [h2]
    exact abs_sub_round (-q)

theorem round2_close (q : ℚ) : |round2 q - q| ≤ 1 / 200 := by
  have h := pgRoundInt_close (q * 100)
  rw [round2]
  have h2 : (pgRoundInt (q * 100) : ℚ) / 100 - q
      = ((pgRoundInt (q * 100) : ℚ) - q * 100) / 100 := by ring
  rw [h2, abs_div, abs_of_pos (by norm_num : (0 : ℚ) < 100)]
  calc |(pgRoundInt (q * 100) : ℚ) - q * 100| / 100
      ≤ (1 / 2) / 100 := by
        apply div_le_div_of_nonneg_right h (by norm_num)
    _ = 1 / 200 := by norm_num

theorem sum_round2_close (xs : List ℚ) :
    |(xs.map round2).sum - xs.sum| ≤ (xs.length : ℚ) / 200 := by
  induction xs with
  | nil => simp
  | cons x xs ih =>
    simp only [List.map_cons, List.sum_cons, List.length_cons]
    have h1 := round2_close x
    calc |round2 x + (xs.map round2).sum - (x + xs.sum)|
        = |(round2 x - x) + ((xs.map round2).sum - xs.sum)| := by ring_nf
      _ ≤ |round2 x - x| + |(xs.map round2).sum - xs.sum| := abs_add _ _
      _ ≤ 1 / 200 + (xs.length : ℚ) / 200 := add_le_add h1 ih
      _ = ((xs.length : ℚ) + 1) / 200 := by ring
      _ = (((xs.length + 1 : ℕ)) : ℚ) / 200 := by push_cast; ring

/-! ## Group counts partition the table -/

theorem length_filter_eq_count {α β : Type} [DecidableEq β] (f : α → β)
    (l : List α) (b : β) :
    (l.filter fun a => decide (f a = b)).length = (l.map f).count b := by
  induction l with
  | nil => simp
  | cons x xs ih =>
    by_cases h : f x = b
    · simp [List.filter_cons, List.count_cons, h, ih]
    · simp [List.filter_cons, List.count_cons, h, ih]

theorem sum_status_counts (db : Database) :
    ((statusKeys db).map fun s => (statusGrp db s).length).sum
      = db.ordenes.length := by
  have h := List.sum_map_count_dedup_eq_length (db.ordenes.map fun o => o.status)
  rw [List.length_map] at h
  rw [statusKeys, ← h]
  apply congrArg List.sum
  apply List.map_congr_left
  intro s _
  exact length_filter_eq_count (fun o => o.status) db.ordenes s

theorem sum_map_natcast_mul_div (l : List Nat) (c : ℚ) :
    (l.map fun k : Nat => ((k : ℚ) * 100 / c)).sum = ((l.sum : ℚ)) * 100 / c := by
  induction l with
  | nil => simp
  | cons x xs ih =>
    simp only [List.map_cons, List.sum_cons, ih]
    push_cast
    ring

/-! ## Claim C7 -/

/-- Claim C7: every row of `view_ordenes_por_status` computes both
percentage columns from its own group aggregate divided by the single
global total precomputed over all orders regardless of status (`NULL`
only when that shared denominator is zero), and consequently the
percentages of order counts over all returned rows sum to approximately
100, within the accumulated rounding tolerance. -/
theorem view_status_percentages (db : Database) :
    (∀ r ∈ view_ordenes_por_status db,
      r.porcentaje_ordenes = (if totalOrdenesGlobal db = 0 then none
        else some (round2 ((r.cantidad_ordenes : ℚ) * 100
          / (totalOrdenesGlobal db : ℚ)))) ∧
      r.porcentaje_monto = (if montoTotalGlobal db = 0 then none
        else some (round2 (r.monto_total * 100 / montoTotalGlobal db)))) ∧
    (db.ordenes ≠ [] →
      |((view_ordenes_por_status db).map
          fun r => r.porcentaje_ordenes.getD 0).sum - 100|
        ≤ ((view_ordenes_por_status db).length : ℚ) / 200) := by
  constructor
  · intro r hr
    obtain ⟨s, _, hsr⟩ := List.mem_map.mp (mem_sortLe.mp hr)
    subst hsr
    exact ⟨rfl, rfl⟩
  · intro hne
    have hn0 : totalOrdenesGlobal db ≠ 0 := by
      simp only [totalOrdenesGlobal]
      exact fun h => hne (List.eq_nil_of_length_eq_zero h)
    have hcast : ((totalOrdenesGlobal db : ℚ)) ≠ 0 := Nat.cast_ne_zero.mpr hn0
    have hsum1 : ((view_ordenes_por_status db).map
        fun r => r.porcentaje_ordenes.getD 0).sum
        = (((statusKeys db).map (mkStatusRow db)).map
            fun r => r.porcentaje_ordenes.getD 0).sum :=
      ((sortLe_perm statusLe _).map _).sum_eq
    have hlen : (view_ordenes_por_status db).length
        = (statusKeys db).length := by
      rw [view_ordenes_por_status, length_sortLe, List.length_map]
    have hsum2 : ((statusKeys db).map (mkStatusRow db)).map
          (fun r => r.porcentaje_ordenes.getD 0)
        = (((statusKeys db).map fun s => (statusGrp db s).length).map
            fun k : Nat => ((k : ℚ) * 100 / (totalOrdenesGlobal db : ℚ))).map
              round2 := by
      rw [List.map_map, List.map_map, List.map_map]
      apply List.map_congr_left
      intro s _
      simp [mkStatusRow, hn0]
    have hexact : (((statusKeys db).map fun s => (statusGrp db s).length).map
        fun k : Nat => ((k : ℚ) * 100 / (totalOrdenesGlobal db : ℚ))).sum
          = 100 := by
      rw [sum_map_natcast_mul_div, sum_status_counts]
      show ((db.ordenes.length : ℚ)) * 100 / ((totalOrdenesGlobal db : ℚ)) = 100
      rw [totalOrdenesGlobal, mul_comm, mul_div_assoc, div_self, mul_one]
      rw [totalOrdenesGlobal] at hcast
      exact hcast
    rw [hsum1, hsum2, hlen]
    have hxlen : (((statusKeys db).map fun s => (statusGrp db s).length).map
        fun k : Nat => ((k : ℚ) * 100 / (totalOrdenesGlobal db : ℚ))).length
          = (statusKeys db).length := by
      rw [List.length_map, List.length_map]
    calc |((((statusKeys db).map fun s => (statusGrp db s).length).map
            fun k : Nat => ((k : ℚ) * 100 / (totalOrdenesGlobal db : ℚ))).map
              round2).sum - 100|
        = |((((statusKeys db).map fun s => (statusGrp db s).length).map
            fun k : Nat => ((k : ℚ) * 100 / (totalOrdenesGlobal db : ℚ))).map
              round2).sum
          - (((statusKeys db).map fun s => (statusGrp db s).length).map
            fun k : Nat => ((k : ℚ) * 100 / (totalOrdenesGlobal db : ℚ))).sum| := by
          rw [hexact]
      _ ≤ ((((statusKeys db).map fun s => (statusGrp db s).length).map
            fun k : Nat => ((k : ℚ) * 100
              / (totalOrdenesGlobal db : ℚ))).length : ℚ) / 200 :=
          sum_round2_close _
      _ = ((statusKeys db).length : ℚ) / 200 := by rw [hxlen]

/-- Four orders across three statuses. -/
def dbC7 : Database :=
  { usuarios := [⟨1, "Ana", "ana@mail.com"⟩],
    categorias := [],
    productos := [],
    ordenes := [⟨1, 1, "pagado", 100, 86400⟩, ⟨2, 1, "pagado", 50, 90000⟩,
                ⟨3, 1, "pendiente", 25, 172800⟩, ⟨4, 1, "cancelado", 10, 259200⟩],
    ordenDetalles := [] }

/-- Concrete instance of the claim-C7 theorem on `dbC7`. -/
theorem view_status_percentages_witness :
    (((view_ordenes_por_status dbC7).get ⟨0, by decide⟩).porcentaje_ordenes
      = if totalOrdenesGlobal dbC7 = 0 then none
        else some (round2
          ((((view_ordenes_por_status dbC7).get
              ⟨0, by decide⟩).cantidad_ordenes : ℚ)
            * 100 / (totalOrdenesGlobal dbC7 : ℚ)))) ∧
    |((view_ordenes_por_status dbC7).map
        fun r => r.porcentaje_ordenes.getD 0).sum - 100|
      ≤ ((view_ordenes_por_status dbC7).length : ℚ) / 200 :=
  ⟨((view_status_percentages dbC7).1 _ (List.get_mem _ _ _)).1,
   (view_status_percentages dbC7).2 (by decide)⟩

/-! ## VIEW 5: view_resumen_daily (db/reports_vw.sql 374-386) -/

/-- A row of `ordenes LEFT JOIN orden_detalles ON od.orden_id = o.id`. -/
structure DailyJoinRow where
  o : Orden
  od : Option OrdenDetalle
deriving DecidableEq

/-- The left join underlying `view_resumen_daily`. -/
def dailyJoin (db : Database) : List DailyJoinRow :=
  db.ordenes.flatMap fun o =>
    let ds := db.ordenDetalles.filter fun d => decide (d.ordenId = o.id)
    if ds.isEmpty then [⟨o, none⟩] else ds.map fun d => ⟨o, some d⟩

/-- The join rows of one `GROUP BY DATE(o.created_at)` group. -/
def dailyGrp (db : Database) (d : Nat) : List DailyJoinRow :=
  (dailyJoin db).filter fun r => decide (dateOf r.o = d)

/-- `SUM(o.total)` of one day group (`ventas_del_dia`). -/
def ventasDia (db : Database) (d : Nat) : ℚ :=
  ((dailyGrp db d).map fun r => r.o.total).sum

/-- A row of `view_resumen_daily`. -/
structure ResumenDaily where
  fecha : Nat
  ordenes_del_dia : Nat
  ventas_del_dia : ℚ
  ventas_acumuladas : ℚ
  productos_vendidos : Int
  clientes_unicos : Nat
  ticket_promedio_dia : ℚ
deriving DecidableEq

/-- Aggregate one day group; `acc` is the revenue of the strictly
earlier days, so `ventas_acumuladas = acc + ventas_del_dia` realises
`SUM(SUM(o.total)) OVER (ORDER BY DATE(o.created_at))`. -/
def mkDailyRow (db : Database) (acc : ℚ) (d : Nat) : ResumenDaily :=
  let grp := dailyGrp db d
  { fecha := d,
    ordenes_del_dia := ((grp.map fun r => r.o.id).dedup).length,
    ventas_del_dia := ventasDia db d,
    ventas_acumuladas := acc + ventasDia db d,
    productos_vendidos :=
      ((grp.filterMap fun r => r.od).map fun d2 => d2.cantidad).sum,
    clientes_unicos := ((grp.map fun r => r.o.usuarioId).dedup).length,
    ticket_promedio_dia := if grp.isEmpty then 0
      else round2 ((grp.map fun r => r.o.total).sum / (grp.length : ℚ)) }

/-- Produce the rows for the (ascending) day keys, threading the
window's running revenue through `acc`. -/
def buildDaily (db : Database) : ℚ → List Nat → List ResumenDaily
  | _, [] => []
  | acc, d :: ds => mkDailyRow db acc d :: buildDaily db (acc + ventasDia db d) ds

/-- The distinct `DATE(o.created_at)` group keys. -/
def dailyKeys (db : Database) : List Nat :=
  ((dailyJoin db).map fun r => dateOf r.o).dedup

/-- The group keys in the view's `ORDER BY fecha` order. -/
def dailyKeysSorted (db : Database) : List Nat :=
  sortLe (fun a b => decide (a ≤ b)) (dailyKeys db)

/-- `view_resumen_daily`: one row per calendar day with at least one
order, dates ascending, with the running revenue window. -/
def view_resumen_daily (db : Database) : List ResumenDaily :=
  buildDaily db 0 (dailyKeysSorted db)

theorem buildDaily_map_fecha (db : Database) (acc : ℚ) (ks : List Nat) :
    (buildDaily db acc ks).map (fun r => r.fecha) = ks := by
  induction ks generalizing acc with
  | nil => simp [buildDaily]
  | cons d ds ih => simp [buildDaily, mkDailyRow, ih]

theorem buildDaily_acum (db : Database) (ks : List Nat) (acc : ℚ)
    (hp : ks.Pairwise (· < ·)) :
    ∀ r ∈ buildDaily db acc ks,
      r.ventas_acumuladas = acc + (((buildDaily db acc ks).filter
        fun r2 => decide (r2.fecha ≤ r.fecha)).map
          fun r2 => r2.ventas_del_dia).sum := by
  induction ks generalizing acc with
  | nil =>
    intro r hr
    simp [buildDaily] at hr
  | cons d ds ih =>
    intro r hr
    rcases hp with _ | ⟨hd, hds⟩
    rcases List.mem_cons.mp hr with rfl | hr2
    · have htail : (buildDaily db (acc + ventasDia db d) ds).filter
          (fun r2 => decide (r2.fecha ≤ (mkDailyRow db acc d).fecha)) = [] := by
        rw [List.filter_eq_nil_iff]
        intro r2 hr2
        have hf : r2.fecha ∈ ds := by
          have hm := List.mem_map_of_mem (fun r3 : ResumenDaily => r3.fecha) hr2
          rwa [buildDaily_map_fecha] at hm
        have hlt := hd _ hf
        simp only [mkDailyRow, decide_eq_true_eq]
        exact Nat.not_le.mpr hlt
      rw [buildDaily, List.filter_cons]
      have hdd : decide ((mkDailyRow db acc d).fecha
          ≤ (mkDailyRow db acc d).fecha) = true := by simp
      rw [if_pos hdd, htail]
      simp [mkDailyRow]
    · have ihr := ih (acc + ventasDia db d) hds r hr2
      have hf : r.fecha ∈ ds := by
        have hm := List.mem_map_of_mem (fun r3 : ResumenDaily => r3.fecha) hr2
        rwa [buildDaily_map_fecha] at hm
      have hdr : d < r.fecha := hd _ hf
      rw [buildDaily, List.filter_cons]
      have hdd : decide ((mkDailyRow db acc d).fecha ≤ r.fecha) = true := by
        simp only [mkDailyRow, decide_eq_true_eq]
        exact le_of_lt hdr
      rw [if_pos hdd]
      simp only [List.map_cons, List.sum_cons]
      rw [ihr]
      have hv : (mkDailyRow db acc d).ventas_del_dia = ventasDia db d := rfl
      rw [hv]
      ring

theorem dailyKeysSorted_pairwise (db : Database) :
    (dailyKeysSorted db).Pairwise (· < ·) := by
  have hle : (dailyKeysSorted db).Pairwise
      (fun a b : Nat => (decide (a ≤ b)) = true) :=
    sortLe_pairwise
      (fun a b h => by
        simp only [decide_eq_false_iff_not, decide_eq_true_eq, not_le] at *
        exact le_of_lt h)
      (fun a b c h1 h2 => by
        simp only [decide_eq_true_eq] at *
        exact le_trans h1 h2)
      (dailyKeys db)
  have hnd : (dailyKeysSorted db).Nodup :=
    ((sortLe_perm _ _).nodup_iff).mpr (List.nodup_dedup _)
  have hand := hle.and hnd
  refine hand.imp ?_
  intro a b hab
  obtain ⟨h1, h2⟩ := hab
  have h3 : a ≤ b := of_decide_eq_true h1
  exact lt_of_le_of_ne h3 h2

/-! ## Claim C8 -/

/-- Claim C8: in `view_resumen_daily`, the running cumulative revenue
of every row equals the sum of `ventas_del_dia` over all result rows
with date `≤` that row's date; in particular a latest row's running
total is the sum of daily revenue over every row of the result. -/
theorem view_daily_running_total (db : Database) :
    (∀ r ∈ view_resumen_daily db,
      r.ventas_acumuladas = (((view_resumen_daily db).filter
        fun r2 => decide (r2.fecha ≤ r.fecha)).map
          fun r2 => r2.ventas_del_dia).sum) ∧
    (∀ r ∈ view_resumen_daily db,
      (∀ r2 ∈ view_resumen_daily db, r2.fecha ≤ r.fecha) →
      r.ventas_acumuladas
        = ((view_resumen_daily db).map fun r2 => r2.ventas_del_dia).sum) := by
  have hmain : ∀ r ∈ view_resumen_daily db,
      r.ventas_acumuladas = (((view_resumen_daily db).filter
        fun r2 => decide (r2.fecha ≤ r.fecha)).map
          fun r2 => r2.ventas_del_dia).sum := by
    intro r hr
    have h := buildDaily_acum db (dailyKeysSorted db) 0
      (dailyKeysSorted_pairwise db) r hr
    rw [view_resumen_daily]
    rw [h, zero_add]
  refine ⟨hmain, ?_⟩
  intro r hr hall
  have h := hmain r hr
  have hself : (view_resumen_daily db).filter
      (fun r2 => decide (r2.fecha ≤ r.fecha)) = view_resumen_daily db := by
    rw [List.filter_eq_self]
    intro r2 hr2
    exact decide_eq_true (hall r2 hr2)
  rw [h, hself]

/-- Two orders on two different days. -/
def dbC8 : Database :=
  { usuarios := [⟨1, "Ana", "ana@mail.com"⟩],
    categorias := [],
    productos := [],
    ordenes := [⟨1, 1, "pagado", 100, 86400⟩, ⟨2, 1, "entregado", 50, 172800⟩],
    ordenDetalles := [] }

/-- Concrete instance of the claim-C8 theorem on `dbC8`: the first
row's running total sums the rows up to its date, and the second (and
latest) row's running total is the grand total. -/
theorem view_daily_running_total_witness :
    ((view_resumen_daily dbC8).get ⟨0, by decide⟩).ventas_acumuladas
      = (((view_resumen_daily dbC8).filter
          fun r2 => decide (r2.fecha
            ≤ ((view_resumen_daily dbC8).get ⟨0, by decide⟩).fecha)).map
            fun r2 => r2.ventas_del_dia).sum ∧
    ((view_resumen_daily dbC8).get ⟨1, by decide⟩).ventas_acumuladas
      = ((view_resumen_daily dbC8).map fun r2 => r2.ventas_del_dia).sum :=
  ⟨(view_daily_running_total dbC8).1 _ (List.get_mem _ _ _),
   (view_daily_running_total dbC8).2 _ (List.get_mem _ _ _) (by decide)⟩

/-! ## VIEW 1: view_ventas_por_categoria (db/reports_vw.sql 149-168) -/

/-- A row of the inner join
`categorias INNER JOIN productos ON p.categoria_id = c.id
INNER JOIN orden_detalles ON od.producto_id = p.id
INNER JOIN ordenes ON o.id = od.orden_id`. -/
structure CatJoinRow where
  c : Categoria
  p : Producto
  od : OrdenDetalle
  o : Orden
deriving DecidableEq

/-- The join underlying `view_ventas_por_categoria`. -/
def catJoin (db : Database) : List CatJoinRow :=
  db.categorias.flatMap fun c =>
    (db.productos.filter fun p => decide (p.categoriaId = c.id)).flatMap fun p =>
      (db.ordenDetalles.filter fun od => decide (od.productoId = p.id)).flatMap
        fun od =>
          (db.ordenes.filter fun o => decide (o.id = od.ordenId)).map fun o =>
            ⟨c, p, od, o⟩

/-- `SELECT SUM(subtotal) FROM orden_detalles`: the global revenue
denominator of `porcentaje_del_total`. -/
def globalSubtotal (db : Database) : ℚ :=
  (db.ordenDetalles.map fun od => od.subtotal).sum

/-- A row of `view_ventas_por_categoria`; `porcentaje_del_total` is
`Option ℚ` because of the `NULLIF` null-safe division. -/
structure VentasPorCategoria where
  categoria_id : Nat
  categoria_nombre : String
  total_ordenes : Nat
  total_productos_vendidos : Int
  ingresos_totales : ℚ
  ticket_promedio : ℚ
  porcentaje_del_total : Option ℚ
deriving DecidableEq

/-- The join rows of one `GROUP BY c.id, c.nombre` group. -/
def catGrp (db : Database) (k : Nat × String) : List CatJoinRow :=
  (catJoin db).filter fun r => decide ((r.c.id, r.c.nombre) = k)

/-- Aggregate one category group. -/
def mkVentasRow (db : Database) (k : Nat × String) : VentasPorCategoria :=
  let grp := catGrp db k
  { categoria_id := k.1, categoria_nombre := k.2,
    total_ordenes := ((grp.map fun r => r.o.id).dedup).length,
    total_productos_vendidos := (grp.map fun r => r.od.cantidad).sum,
    ingresos_totales := (grp.map fun r => r.od.subtotal).sum,
    ticket_promedio := if grp.isEmpty then 0
      else round2 ((grp.map fun r => r.od.subtotal).sum / (grp.length : ℚ)),
    porcentaje_del_total := if globalSubtotal db = 0 then none
      else some (round2 ((grp.map fun r => r.od.subtotal).sum * 100
        / globalSubtotal db)) }

/-- The `GROUP BY c.id, c.nombre` keys. -/
def catKeys (db : Database) : List (Nat × String) :=
  ((catJoin db).map fun r => (r.c.id, r.c.nombre)).dedup

/-- The view's `ORDER BY ingresos_totales DESC` relation. -/
def catLe (a b : VentasPorCategoria) : Bool :=
  decide (b.ingresos_totales ≤ a.ingresos_totales)

/-- `view_ventas_por_categoria`: category sales with
`HAVING SUM(od.subtotal) > 0`, revenue descending. -/
def view_ventas_por_categoria (db : Database) : List VentasPorCategoria :=
  sortLe catLe (((catKeys db).map (mkVentasRow db)).filter
    fun r => decide (0 < r.ingresos_totales))

/-! ## getDashboardKPIs (lib/queries.ts 244-284) -/

/-- The KPI record assembled by `getDashboardKPIs`. -/
structure DashboardKPIs where
  totalVentas : ℚ
  totalOrdenes : Nat
  totalProductos : Nat
  totalUsuarios : Nat
  ticketPromedio : ℚ
  categoriaTop : String
  productoTop : String
deriving DecidableEq

/-- `COALESCE(SUM(ingresos_totales), 0)` over `view_ventas_por_categoria`. -/
def kpiTotalVentas (db : Database) : ℚ :=
  ((view_ventas_por_categoria db).map fun r => r.ingresos_totales).sum

/-- `COALESCE(SUM(total_ordenes), 0)` over `view_ventas_por_categoria`. -/
def kpiTotalOrdenes (db : Database) : Nat :=
  ((view_ventas_por_categoria db).map fun r => r.total_ordenes).sum

/-- `getDashboardKPIs`, with each of its five queries executed against
the embedded views; `ticketPromedio` is
`totalOrdenes > 0 ? totalVentas / totalOrdenes : 0`. -/
def getDashboardKPIs (db : Database) : DashboardKPIs :=
  { totalVentas := kpiTotalVentas db,
    totalOrdenes := kpiTotalOrdenes db,
    totalProductos := (view_productos_mas_vendidos db).length,
    totalUsuarios := (view_usuarios_con_compras db).length,
    ticketPromedio := if 0 < kpiTotalOrdenes db then
      kpiTotalVentas db / (kpiTotalOrdenes db : ℚ) else 0,
    categoriaTop := (((view_ventas_por_categoria db).map
      fun r => r.categoria_nombre).head?).getD "N/A",
    productoTop := ((((view_productos_mas_vendidos db).filter
      fun r => decide (r.ranking = 1)).map
        fun r => r.producto_nombre).head?).getD "N/A" }

/-! ## Claim C10 -/

/-- Claim C10: `getDashboardKPIs` never divides by zero — the returned
`ticketPromedio` equals `totalVentas / totalOrdenes` whenever
`totalOrdenes > 0` and is exactly 0 whenever `totalOrdenes = 0`
(including for an empty category view). -/
theorem getDashboardKPIs_ticket_spec (db : Database) :
    (0 < (getDashboardKPIs db).totalOrdenes →
      (getDashboardKPIs db).ticketPromedio
        = (getDashboardKPIs db).totalVentas
          / ((getDashboardKPIs db).totalOrdenes : ℚ)) ∧
    ((getDashboardKPIs db).totalOrdenes = 0 →
      (getDashboardKPIs db).ticketPromedio = 0) := by
  constructor
  · intro h
    simp only [getDashboardKPIs] at *
    rw [if_pos h]
  · intro h
    simp only [getDashboardKPIs] at *
    rw [h] at *
    rw [if_neg (lt_irrefl 0)]

/-- Concrete instance of the claim-C10 theorem: on the empty database
the category view is empty, `totalOrdenes = 0`, and the average ticket
is exactly 0 instead of a division error. -/
theorem getDashboardKPIs_ticket_spec_witness :
    (getDashboardKPIs ⟨[], [], [], [], []⟩).totalOrdenes = 0 ∧
    (getDashboardKPIs ⟨[], [], [], [], []⟩).ticketPromedio = 0 :=
  ⟨by decide, (getDashboardKPIs_ticket_spec ⟨[], [], [], [], []⟩).2 (by decide)⟩

/-! ## lib/schemas.ts: Zod validation -/

/-- A raw search parameter value: `string | string[] | undefined`. -/
abbrev RawValue := Option (String ⊕ List String)

/-- The raw `searchParams` record. -/
abbrev RawParams := List (String × RawValue)

/-- The conversion loop of `parseSearchParams` (`lib/schemas.ts` 81-88)
viewed through a key lookup: a plain string is kept, the first element
of a non-empty array is taken, and `undefined` or an empty array leaves
the key absent. -/
def rawLookup (m : RawParams) (k : String) : Option String :=
  match m.find? fun p => p.1 == k with
  | none => none
  | some p =>
    match p.2 with
    | none => none
    | some (Sum.inl s) => some s
    | some (Sum.inr l) =>
      match l with
      | [] => none
      | x :: _ => some x

/-- The numeric value of a digit run. -/
def digitsToNat (cs : List Char) : Nat :=
  cs.foldl (fun a c => a * 10 + (c.toNat - 48)) 0

/-- `z.coerce.number().int()` on one raw string: JavaScript `Number`
coercion over optional-sign decimal literals followed by Zod's
integrality check.  `none` is `NaN` (coercion failure) or a non-integer
number; the empty string coerces to `0`. -/
def coerceNumberInt (s : String) : Option Int :=
  let cs := s.toList
  if cs.isEmpty then some 0
  else
    let sgn : Bool × List Char :=
      match cs with
      | '-' :: t => (true, t)
      | '+' :: t => (false, t)
      | _ => (false, cs)
    let ip := sgn.2.takeWhile fun c => c.isDigit
    let rest := sgn.2.dropWhile fun c => c.isDigit
    match rest with
    | [] =>
      if ip.isEmpty then none
      else some (if sgn.1 then -(digitsToNat ip : Int) else (digitsToNat ip : Int))
    | '.' :: rest2 =>
      let fp := rest2.takeWhile fun c => c.isDigit
      let rest3 := rest2.dropWhile fun c => c.isDigit
      if rest3.isEmpty && !(ip.isEmpty && fp.isEmpty) then
        if digitsToNat fp = 0 then
          some (if sgn.1 then -(digitsToNat ip : Int) else (digitsToNat ip : Int))
        else none
      else none
    | _ => none

/-- One field of the pipeline
`z.coerce.number().int().min(lo)[.max(hi)].default(dflt)`: an absent
value yields the default; a present value is coerced and checked
against the whitelisted range — out-of-range values are rejected, never
clamped. -/
def zCoerceIntBound (lo : Int) (hi : Option Int) (dflt : Int)
    (raw : Option String) : Option Int :=
  match raw with
  | none => some dflt
  | some s =>
    match coerceNumberInt s with
    | none => none
    | some n =>
      if decide (lo ≤ n)
          && (match hi with | none => true | some h => decide (n ≤ h)) then
        some n
      else none

/-- The output type of `PaginationSchema`. -/
structure Pagination where
  page : Int
  limit : Int
deriving DecidableEq

/-- `parseSearchParams searchParams PaginationSchema`: `page` (min 1,
default 1) and `limit` (1–100, default 10) must both validate or the
whole parse throws, modelled by `none`. -/
def parsePagination (m : RawParams) : Option Pagination :=
  match zCoerceIntBound 1 none 1 (rawLookup m "page"),
        zCoerceIntBound 1 (some 100) 10 (rawLookup m "limit") with
  | some p, some l => some ⟨p, l⟩
  | _, _ => none

/-! ## Claim C4 -/

/-- Claim C4: whenever a recognized numeric parameter of
`PaginationSchema` is present but non-numeric or outside its
whitelisted range (its field pipeline rejects it), `parseSearchParams`
fails as a whole: no clamped value and no partially validated struct is
returned. -/
theorem parsePagination_rejects (m : RawParams)
    (h : zCoerceIntBound 1 none 1 (rawLookup m "page") = none ∨
      zCoerceIntBound 1 (some 100) 10 (rawLookup m "limit") = none) :
    parsePagination m = none := by
  rw [parsePagination]
  rcases h with h | h
  · rw [h]
  · rw [h]
    cases zCoerceIntBound 1 none 1 (rawLookup m "page") <;> rfl

/-- Concrete instance of the claim-C4 theorem, the example of the spec:
`limit=500` exceeds the maximum 100, is rejected rather than clamped,
and the whole validation yields nothing. -/
theorem parsePagination_rejects_witness :
    zCoerceIntBound 1 (some 100) 10
      (rawLookup [("limit", some (Sum.inl "500"))] "limit") = none ∧
    parsePagination [("limit", some (Sum.inl "500"))] = none :=
  ⟨by decide,
   parsePagination_rejects [("limit", some (Sum.inl "500"))] (Or.inr (by decide))⟩

/-! ## DateRangeSchema (lib/schemas.ts 42-45) and claim C5 -/

/-- The regex `^\d{4}-\d{2}-\d{2}$` of `DateRangeSchema`: four digits,
a dash, two digits, a dash, two digits — a pure shape check. -/
def dateShape (s : String) : Bool :=
  match s.toList with
  | [y1, y2, y3, y4, h1, m1, m2, h2, d1, d2] =>
    y1.isDigit && y2.isDigit && y3.isDigit && y4.isDigit &&
    decide (h1 = '-') && m1.isDigit && m2.isDigit &&
    decide (h2 = '-') && d1.isDigit && d2.isDigit
  | _ => false

/-- The output type of `DateRangeSchema`; absent optional dates stay
absent. -/
structure DateRange where
  startDate : Option String
  endDate : Option String
deriving DecidableEq

/-- One optional date field: absent is fine, a present value must
match the shape regex or the parse throws. -/
def parseDateField (raw : Option String) : Option (Option String) :=
  match raw with
  | none => some none
  | some s => if dateShape s then some (some s) else none

/-- `parseSearchParams searchParams DateRangeSchema`. -/
def parseDateRange (m : RawParams) : Option DateRange :=
  match parseDateField (rawLookup m "startDate"),
        parseDateField (rawLookup m "endDate") with
  | some a, some b => some ⟨a, b⟩
  | _, _ => none

/-- The numeric value of one digit character. -/
def charVal (c : Char) : Nat := c.toNat - 48

/-- Gregorian leap years. -/
def isLeap (y : Nat) : Bool :=
  (decide (y % 4 = 0) && !decide (y % 100 = 0)) || decide (y % 400 = 0)

/-- Days of month `m` in year `y`. -/
def daysInMonth (y m : Nat) : Nat :=
  if m = 2 then (if isLeap y then 29 else 28)
  else if m = 4 ∨ m = 6 ∨ m = 9 ∨ m = 11 then 30
  else 31

/-- The spec's notion of a string denoting a valid ISO calendar date
(§4.1 "two optional ISO calendar dates"), stated for comparison with
the shape check actually implemented: the digit shape together with a
real month 1–12 and a real day of that month. -/
def isValidCalendarDate (s : String) : Bool :=
  match s.toList with
  | [y1, y2, y3, y4, _, m1, m2, _, d1, d2] =>
    dateShape s &&
    (let y := ((charVal y1 * 10 + charVal y2) * 10 + charVal y3) * 10 + charVal y4
     let m := charVal m1 * 10 + charVal m2
     let d := charVal d1 * 10 + charVal d2
     decide (1 ≤ m) && decide (m ≤ 12) && decide (1 ≤ d) &&
       decide (d ≤ daysInMonth y m))
  | _ => false

/-- Claim C5 is false on the code: `DateRangeSchema` checks only the
digit-shape regex, so the shape-correct string `"2024-13-99"` (month
13, day 99 — not a calendar date) is accepted by the validator,
refuting "accepts if and only if it denotes a valid ISO calendar
date". -/
theorem dateRange_accepts_nondate :
    parseDateRange [("startDate", some (Sum.inl "2024-13-99"))]
      = some ⟨some "2024-13-99", none⟩ ∧
    isValidCalendarDate "2024-13-99" = false :=
  ⟨by decide, by decide⟩

/-- Claim C5 amended: the date-range validator accepts a present
`startDate` or `endDate` string if and only if it matches the
`\d{4}-\d{2}-\d{2}` digit shape; calendar validity of the digits is not
checked. -/
theorem dateRange_accepts_iff_shape (s : String) :
    (parseDateRange [("startDate", some (Sum.inl s))]).isSome = dateShape s ∧
    (parseDateRange [("endDate", some (Sum.inl s))]).isSome = dateShape s := by
  have hs : rawLookup [("startDate", some (Sum.inl s))] "startDate" = some s := by
    simp [rawLookup, List.find?]
  have hs2 : rawLookup [("startDate", some (Sum.inl s))] "endDate" = none := by
    simp [rawLookup, List.find?]
  have he : rawLookup [("endDate", some (Sum.inl s))] "endDate" = some s := by
    simp [rawLookup, List.find?]
  have he2 : rawLookup [("endDate", some (Sum.inl s))] "startDate" = none := by
    simp [rawLookup, List.find?]
  constructor
  · rw [parseDateRange, hs, hs2]
    cases h : dateShape s <;> simp [parseDateField, h]
  · rw [parseDateRange, he, he2]
    cases h : dateShape s <;> simp [parseDateField, h]

end Reportes
